import Mathlib

/-!
Shallow embedding of pyqgiswps `src/pyqgiswps/executors/processingio.py`:
the bidirectional adapter between QGIS processing parameter/output
descriptors and WPS Literal/Complex/BoundingBox inputs and outputs.

Python values, machine integers and strings are modelled over Lean
String/Int/Nat.  Stateful operations (feature selection on live layers,
descriptor mutation, logged warnings) are modelled by explicit state
passing: functions return the updated context/descriptor and the list of
warnings they logged.  Fallible code returns Except.
-/

set_option maxHeartbeats 1000000

namespace ProcessingIO

/-! ## Python value model

Python objects appearing as default values and metadata values. -/

inductive PyVal where
  | none : PyVal
  | int : Int → PyVal
  | bool : Bool → PyVal
  | str : String → PyVal
  | intList : List Int → PyVal
  | strList : List String → PyVal
deriving Repr, DecidableEq

/-- Python truthiness, for values used in boolean context. -/
def PyVal.truthy : PyVal → Bool
  | PyVal.none => false
  | PyVal.int i => i ≠ 0
  | PyVal.bool b => b
  | PyVal.str s => s ≠ ""
  | PyVal.intList l => ¬ l.isEmpty
  | PyVal.strList l => ¬ l.isEmpty

/-- Python str() of the modelled values (used by parse_metadata on the
freeform metadata map). -/
def PyVal.pyStr : PyVal → String
  | PyVal.none => "None"
  | PyVal.int i => toString i
  | PyVal.bool b => if b then "True" else "False"
  | PyVal.str s => s
  | PyVal.intList l => toString l
  | PyVal.strList l => toString l

/-- Python sequence indexing `l[i]`: a negative index counts from the end,
an out-of-range index is an IndexError (modelled as none). -/
def pyListGet (l : List String) (i : Int) : Option String :=
  let j : Int := if i < 0 then i + l.length else i
  if h : 0 ≤ j ∧ j < l.length then l.get ⟨j.toNat, by omega⟩ else Option.none

/-- Python `list.index(x)`: index of the first occurrence, none (ValueError)
if absent. -/
def pyIndexOf (l : List String) (x : String) : Option Nat :=
  match l with
  | [] => Option.none
  | a :: rest => if a = x then some 0 else (pyIndexOf rest x).map (fun n => n + 1)

/-! ## Kernel-computable string primitives

The standard String.splitOn / replace / startsWith are implemented over
byte positions and do not reduce inside the kernel; the model re-implements
the handful of string operations it needs structurally over the character
list, so that concrete runs evaluate inside proofs.  Every separator the
source uses is a single character. -/

/-- Split a character list on a separator character (semantics of
String.splitOn with a one-character separator). -/
def splitCharsOn (c : Char) : List Char → List (List Char)
  | [] => [[]]
  | a :: rest =>
      match splitCharsOn c rest with
      | [] => if a = c then [[], []] else [[a]]
      | h :: t => if a = c then [] :: h :: t else (a :: h) :: t

/-- String.splitOn with a one-character separator. -/
def strSplitOnChar (s : String) (c : Char) : List String :=
  (splitCharsOn c s.data).map String.mk

/-- String.startsWith. -/
def strStartsWith (s p : String) : Bool := p.data.isPrefixOf s.data

/-- String.intercalate. -/
def strIntercalate (sep : String) : List String → String
  | [] => ""
  | [a] => a
  | a :: rest => a ++ sep ++ strIntercalate sep rest

/-- String.toLower. -/
def strToLower (s : String) : String := String.mk (s.data.map Char.toLower)

/-- String.replace with a one-character pattern and replacement. -/
def strReplaceChar (s : String) (c r : Char) : String :=
  String.mk (s.data.map (fun a => if a = c then r else a))

/-! ## urllib helpers: urlparse / parse_qs / unquote -/

/-- Split a string at the first occurrence of a separator character;
returns the part before and, when the separator occurs, the part after. -/
def splitFirst (s : String) (sep : Char) : String × Option String :=
  match strSplitOnChar s sep with
  | [] => (s, Option.none)
  | [a] => (a, Option.none)
  | a :: rest => (a, some (strIntercalate (String.mk [sep]) rest))

structure UrlParts where
  scheme : String
  netloc : String
  path : String
  query : String
  fragment : String
deriving Repr, DecidableEq

/-- Valid characters of a URL scheme after the first one. -/
def isSchemeChar (c : Char) : Bool :=
  c.isAlpha ∨ c.isDigit ∨ c = '+' ∨ c = '-' ∨ c = '.'

/-- Model of urllib.parse.urlparse restricted to the fields the source
reads (scheme, path, query): an initial `name:` with `name` nonempty,
starting with a letter and made of scheme characters is the scheme
(lowercased); a following `//...` up to the next `/`, `?` or `#` is the
netloc; a `#` suffix is the fragment and a `?` suffix before it the query;
the rest is the path.  Percent-escapes are left untouched here (parse_qs
decodes them). -/
def pyUrlparse (url : String) : UrlParts :=
  let (schemePart, rest) :=
    match splitFirst url ':' with
    | (before, some after) =>
        if before ≠ "" ∧ (before.data.headD ' ').isAlpha ∧ before.data.all isSchemeChar then
          (strToLower before, after)
        else ("", url)
    | (_, Option.none) => ("", url)
  let (netloc, rest) :=
    if strStartsWith rest "//" then
      let r := rest.data.drop 2
      let n := r.takeWhile (fun c => c ≠ '/' ∧ c ≠ '?' ∧ c ≠ '#')
      (String.mk n, String.mk (r.drop n.length))
    else ("", rest)
  let (rest, fragment) :=
    match splitFirst rest '#' with
    | (before, some after) => (before, after)
    | (before, Option.none) => (before, "")
  let (path, query) :=
    match splitFirst rest '?' with
    | (before, some after) => (before, after)
    | (before, Option.none) => (before, "")
  { scheme := schemePart, netloc := netloc, path := path, query := query, fragment := fragment }

def hexDigitVal (c : Char) : Option Nat :=
  if c.isDigit then some (c.toNat - '0'.toNat)
  else if 'a' ≤ c ∧ c ≤ 'f' then some (c.toNat - 'a'.toNat + 10)
  else if 'A' ≤ c ∧ c ≤ 'F' then some (c.toNat - 'A'.toNat + 10)
  else Option.none

/-- Percent-decoding of urllib.parse.unquote restricted to single-byte
escapes (multi-byte UTF-8 sequences are out of the claims' scope);
fuel-based structural recursion so that concrete runs evaluate inside
proofs. -/
def pyUnquoteCharsFuel : Nat → List Char → List Char
  | 0, l => l
  | Nat.succ _, [] => []
  | Nat.succ fuel, '%' :: a :: b :: rest =>
      match hexDigitVal a, hexDigitVal b with
      | some x, some y => Char.ofNat (16 * x + y) :: pyUnquoteCharsFuel fuel rest
      | _, _ => '%' :: pyUnquoteCharsFuel fuel (a :: b :: rest)
  | Nat.succ fuel, c :: rest => c :: pyUnquoteCharsFuel fuel rest

/-- Percent decoder entry point: each step consumes at least one
character, so the input length is enough fuel. -/
def pyUnquoteChars (l : List Char) : List Char := pyUnquoteCharsFuel l.length l

/-- urllib.parse.unquote_plus: '+' becomes a space, then percent-decoding. -/
def pyUnquotePlus (s : String) : String :=
  String.mk (pyUnquoteChars (strReplaceChar s '+' ' ').data)

/-- urllib.parse.parse_qs restricted to fetching one key: split the query
on '&', keep the pairs `k=v` with a non-empty value (keep_blank_values is
false), decode and collect the values of the given key in order. -/
def pyParseQsGet (query key : String) : List String :=
  (strSplitOnChar query '&').filterMap (fun pair =>
    match splitFirst pair '=' with
    | (k, some v) =>
        if v ≠ "" ∧ pyUnquotePlus k = key then some (pyUnquotePlus v) else Option.none
    | (_, Option.none) => Option.none)

/-! ## os.path helpers: normpath / basename (POSIX rules) -/

/-- posixpath.normpath: collapse separators and '.' components, resolve
'..' where possible, keep leading '..' components of a relative path. -/
def pyNormpath (path : String) : String :=
  if path = "" then "." else
  let initialSlashes : Nat :=
    if strStartsWith path "/" then
      if strStartsWith path "//" ∧ ¬ strStartsWith path "///" then 2 else 1
    else 0
  let newComps := (strSplitOnChar path '/').foldl (fun acc comp =>
    if comp = "" ∨ comp = "." then acc
    else if comp ≠ ".." ∨ (initialSlashes = 0 ∧ acc = []) ∨ acc.getLast? = some ".." then
      acc ++ [comp]
    else if acc ≠ [] then acc.dropLast
    else acc) []
  let p := String.mk (List.replicate initialSlashes '/') ++ strIntercalate "/" newComps
  if p = "" then "." else p

/-- posixpath.basename: everything after the last '/'. -/
def pyBasename (p : String) : String :=
  ((strSplitOnChar p '/').getLast?).getD p

/-- Fragment of the platform mimetypes.types_map used by the source
(extension, with dot, to MIME type); only the entries the claims exercise
are listed, every other extension resolves to none. -/
def mimetypes_types_map : String → Option String
  | ".html" => some "text/html"
  | ".txt" => some "text/plain"
  | ".json" => some "application/json"
  | _ => Option.none

/-! ## Exceptions raised by the adapter

InvalidParameterValue / NoApplicableCode / MissingParameterValue come from
pyqgiswps.exceptions; ProcessingInputTypeNotSupported and
ProcessingOutputTypeNotSupported are declared in the source file itself;
indexError / typeError / valueError / attributeError model the Python
built-in exceptions escaping uncaught. -/

inductive Err where
  | invalidParameterValue : String → Err
  | noApplicableCode : String → Err
  | inputTypeNotSupported : String → Err
  | outputTypeNotSupported : String → Err
  | indexError : Err
  | typeError : Err
  | valueError : Err
  | attributeError : Err
deriving Repr, DecidableEq

/-! ## QGIS descriptor model

The native descriptor classes (QgsProcessingParameter*,
QgsProcessingOutput*) are modelled by a kind tag plus the union of the
accessors the source reads.  The kind tag determines both the result of
the isinstance checks (each concrete descriptor class is a leaf class)
and the `type()` string of the descriptor. -/

inductive ParamKind where
  | string | boolean | enum | number | field | crs | band
  | vectorLayer      -- QgsProcessingParameterVectorLayer
  | featureSource    -- QgsProcessingParameterFeatureSource
  | rasterLayer      -- QgsProcessingParameterRasterLayer
  | mapLayer         -- QgsProcessingParameterMapLayer
  | multilayer       -- QgsProcessingParameterMultipleLayers
  | featureSink      -- QgsProcessingParameterFeatureSink
  | vectorDestination
  | rasterDestination
  | file
  | fileDestination
  | folderDestination
  | extent
  | point
deriving Repr, DecidableEq

/-- The `type()` string of each modelled descriptor class, as defined by
QGIS. -/
def ParamKind.typeName : ParamKind → String
  | ParamKind.string => "string"
  | ParamKind.boolean => "boolean"
  | ParamKind.enum => "enum"
  | ParamKind.number => "number"
  | ParamKind.field => "field"
  | ParamKind.crs => "crs"
  | ParamKind.band => "band"
  | ParamKind.vectorLayer => "vector"
  | ParamKind.featureSource => "source"
  | ParamKind.rasterLayer => "raster"
  | ParamKind.mapLayer => "layer"
  | ParamKind.multilayer => "multilayer"
  | ParamKind.featureSink => "sink"
  | ParamKind.vectorDestination => "vectorDestination"
  | ParamKind.rasterDestination => "rasterDestination"
  | ParamKind.file => "file"
  | ParamKind.fileDestination => "fileDestination"
  | ParamKind.folderDestination => "folderDestination"
  | ParamKind.extent => "extent"
  | ParamKind.point => "point"

/-- QgsProcessing source types (the SourceTypes table of the source). -/
inductive SourceType where
  | TypeMapLayer | TypeVectorAnyGeometry | TypeVectorPoint | TypeVectorLine
  | TypeVectorPolygon | TypeRaster | TypeFile | TypeVector
deriving Repr, DecidableEq

/-- The SourceTypes map of the source: processing source type to string. -/
def SourceType.name : SourceType → String
  | SourceType.TypeMapLayer => "TypeMapLayer"
  | SourceType.TypeVectorAnyGeometry => "TypeVectorAnyGeometry"
  | SourceType.TypeVectorPoint => "TypeVectorPoint"
  | SourceType.TypeVectorLine => "TypeVectorLine"
  | SourceType.TypeVectorPolygon => "TypeVectorPolygon"
  | SourceType.TypeRaster => "TypeRaster"
  | SourceType.TypeFile => "TypeFile"
  | SourceType.TypeVector => "TypeVector"

inductive NumberType where
  | double | integer
deriving Repr, DecidableEq

inductive FieldType where
  | any | numeric | string | dateTime
deriving Repr, DecidableEq

inductive FileBehavior where
  | file | folder
deriving Repr, DecidableEq

/-- Union of the native parameter-descriptor accessors read by the source;
each accessor is meaningful for the kinds whose class defines it and
carries a don't-care value elsewhere. -/
structure ParamDef where
  kind : ParamKind
  name : String
  description : String
  /-- FlagOptional bit of flags(), read through _is_optional. -/
  optional : Bool
  /-- defaultValue(), already unwrapped from QVariant (the source unwraps a
  boxed QVariant to the plain Python object or None before use). -/
  defaultValue : PyVal
  /-- options() of an enum parameter. -/
  options : List String
  /-- allowMultiple() of an enum parameter. -/
  allowMultiple : Bool
  /-- dataType() of a number parameter. -/
  numberDataType : NumberType
  /-- minimum() / maximum() of a number parameter (numeric bounds modelled
  over Int; no claim depends on them). -/
  minimum : Int
  maximum : Int
  /-- parentLayerParameterName() of a field parameter. -/
  parentLayerParameterName : String
  /-- dataType() of a field parameter. -/
  fieldDataType : FieldType
  /-- dataTypes() of a QgsProcessingParameterLimitedDataTypes descriptor. -/
  dataTypes : List SourceType
  /-- layerType() of a multilayer parameter. -/
  layerType : SourceType
  /-- minimumNumberInputs() of a multilayer parameter. -/
  minimumNumberInputs : Nat
  /-- behavior() of a file parameter. -/
  behavior : FileBehavior
  /-- extension() of a file parameter (with leading dot when set). -/
  extension : String
  /-- defaultFileExtension() of a destination parameter (without dot). -/
  defaultFileExtension : String
  /-- dataType() of a vector destination / feature sink (an int enum). -/
  sinkDataType : Int
  /-- metadata() free-form map of the descriptor. -/
  metadataMap : List (String × PyVal)
  /-- supportsNonFileBasedOutput() of a destination parameter. -/
  supportsNonFileBasedOutput : Bool
deriving Repr, DecidableEq

/-- The `type()` string of the descriptor. -/
def ParamDef.typ (param : ParamDef) : String := param.kind.typeName

/-- _is_optional: FlagOptional bit test, modelled by the optional field. -/
def _is_optional (param : ParamDef) : Bool := param.optional

/-- isinstance(param, DESTINATION_LAYER_TYPES). -/
def isDestinationLayerType (k : ParamKind) : Bool :=
  k = ParamKind.featureSink ∨ k = ParamKind.vectorDestination ∨ k = ParamKind.rasterDestination

/-- isinstance(param, INPUT_VECTOR_LAYER_TYPES). -/
def isInputVectorLayerType (k : ParamKind) : Bool :=
  k = ParamKind.vectorLayer ∨ k = ParamKind.featureSource

/-- isinstance(param, INPUT_RASTER_LAYER_TYPES). -/
def isInputRasterLayerType (k : ParamKind) : Bool :=
  k = ParamKind.rasterLayer

/-- isinstance(param, INPUT_OTHER_LAYER_TYPES). -/
def isInputOtherLayerType (k : ParamKind) : Bool :=
  k = ParamKind.mapLayer ∨ k = ParamKind.multilayer

/-- isinstance(param, INPUT_LAYER_TYPES). -/
def isInputLayerType (k : ParamKind) : Bool :=
  isInputVectorLayerType k ∨ isInputRasterLayerType k ∨ isInputOtherLayerType k

/-- isinstance(param, QgsProcessingParameterLimitedDataTypes): in QGIS the
vector-layer and feature-source parameter classes derive from
QgsProcessingParameterLimitedDataTypes. -/
def hasLimitedDataTypes (k : ParamKind) : Bool :=
  k = ParamKind.vectorLayer ∨ k = ParamKind.featureSource

/-! ## Layers, map context and processing context -/

inductive LayerKind where
  | vector | raster | other
deriving Repr, DecidableEq

inductive GeomKind where
  | point | line | polygon | other
deriving Repr, DecidableEq

/-- One feature of a vector layer.  Spatial/expression matching of the
external engine is modelled extensionally: a feature records which rect
specifications contain it and which filter expressions it satisfies. -/
structure Feature where
  fid : Nat
  inRects : List String
  matchesExprs : List String
deriving Repr, DecidableEq

/-- A live map layer of the project, including its current feature
selection (selection is visible, queryable state on the layer object). -/
structure Layer where
  name : String
  layerKind : LayerKind
  geometryKind : GeomKind
  features : List Feature
  selection : List Nat
deriving Repr, DecidableEq

/-- Map context of description time: exposes the project's layers
(MapContext.project().mapLayers()). -/
structure MapContext where
  layers : List Layer
deriving Repr, DecidableEq

/-- Execution-time processing context (module processingcontext, consumed
as a collaborator): root directory for path resolution, the live project
layers, and the destination project handle (opaque). -/
structure ProcessingContext where
  rootdir : String
  layers : List Layer
  destination_project : Nat
deriving Repr, DecidableEq

/-- Modelled from the spec: the processing context (module
processingcontext, not under src/) exposes path resolution mapping a
relative path to an absolute path under a known root. -/
def ProcessingContext.resolve_path (c : ProcessingContext) (p : String) : String :=
  if strStartsWith p "/" then p else c.rootdir ++ "/" ++ p

/-- Modelled from the spec: the processing context resolves a live layer
by name/path (getMapLayer). -/
def ProcessingContext.getMapLayer (c : ProcessingContext) (p : String) : Option Layer :=
  c.layers.find? (fun l => l.name = p)

/-- Replace a layer of the context (state passing for the selection side
effect applied to a live layer object). -/
def ProcessingContext.updateLayer (c : ProcessingContext) (p : String) (l : Layer) :
    ProcessingContext :=
  { c with layers := c.layers.map (fun x => if x.name = p then l else x) }

/-! ## Protocol input shapes

The kwargs dict accumulated by parse_input_definition and handed to the
LiteralInput / ComplexInput / BoundingBoxInput constructors.  Optional
fields model kwargs entries that may be absent (the constructors of
pyqgiswps.inout apply their own defaults to absent entries). -/

inductive AllowedVals where
  | options : List String → AllowedVals
  | range : Int → Int → AllowedVals
deriving Repr, DecidableEq

structure InputKwargs where
  identifier : String
  title : String
  abstract : String
  metadata : List (String × String)
  default : PyVal
  min_occurs : Option Nat
  max_occurs : Option Nat
  data_type : Option String
  allowed_values : Option AllowedVals
  supported_formats : Option (List String)
  crss : Option (List String)
deriving Repr, DecidableEq

/-- The three protocol input shapes, each carrying its constructor
kwargs.  The Python constructors keep the metadata list by reference, so
parse_metadata's later append is visible in the constructed input; the
model applies the append to the stored kwargs. -/
inductive WPSInp where
  | literal : InputKwargs → WPSInp
  | complex : InputKwargs → WPSInp
  | bbox : InputKwargs → WPSInp
deriving Repr, DecidableEq

def WPSInp.kwargs : WPSInp → InputKwargs
  | WPSInp.literal k => k
  | WPSInp.complex k => k
  | WPSInp.bbox k => k

def WPSInp.mapKwargs (f : InputKwargs → InputKwargs) : WPSInp → WPSInp
  | WPSInp.literal k => WPSInp.literal (f k)
  | WPSInp.complex k => WPSInp.complex (f k)
  | WPSInp.bbox k => WPSInp.bbox (f k)

/-- Modelled from the spec: min_occurs of a protocol input defaults to 1
when the kwargs do not set it (the inout constructors are not under
src/; the spec states min_occurs is 1 by default). -/
def WPSInp.minOccurs (inp : WPSInp) : Nat := (inp.kwargs.min_occurs).getD 1

/-- Dispatch of the dataType() map of the field branch of
parse_literal_input. -/
def FieldType.name : FieldType → String
  | FieldType.any => "Any"
  | FieldType.numeric => "Numeric"
  | FieldType.string => "String"
  | FieldType.dateTime => "DateTime"

/-- parse_literal_input: convert a processing parameter of literal kind to
a LiteralInput; none when the kind is not a literal kind; error when the
enum default value has an unsupported shape or indexes out of range. -/
def parse_literal_input (param : ParamDef) (kwargs : InputKwargs) :
    Except Err (Option WPSInp) :=
  let typ := param.typ
  if typ = "string" then
    Except.ok (some (WPSInp.literal { kwargs with data_type := some "string" }))
  else if typ = "boolean" then
    Except.ok (some (WPSInp.literal { kwargs with data_type := some "boolean" }))
  else if typ = "enum" then
    let options := param.options
    let kwargs1 := { kwargs with
      data_type := some "string",
      allowed_values := some (AllowedVals.options options),
      max_occurs := some (if param.allowMultiple then options.length else 1) }
    match param.defaultValue with
    | PyVal.none => Except.ok (some (WPSInp.literal kwargs1))
    | PyVal.int i =>
        -- XXX values for processing enum are indices
        match pyListGet options i with
        | Option.some s => Except.ok (some (WPSInp.literal { kwargs1 with default := PyVal.str s }))
        | Option.none => Except.error Err.indexError
    | PyVal.bool b =>
        -- Python bool is a subtype of int: True indexes as 1, False as 0
        match pyListGet options (if b then 1 else 0) with
        | Option.some s => Except.ok (some (WPSInp.literal { kwargs1 with default := PyVal.str s }))
        | Option.none => Except.error Err.indexError
    | PyVal.intList l =>
        match l with
        | [] => Except.error Err.indexError
        | i :: _ =>
            match pyListGet options i with
            | Option.some s => Except.ok (some (WPSInp.literal { kwargs1 with default := PyVal.str s }))
            | Option.none => Except.error Err.indexError
    | PyVal.strList l =>
        -- default_value[0] is evaluated first (IndexError on an empty
        -- list), and indexing options with a non-int is a TypeError
        match l with
        | [] => Except.error Err.indexError
        | _ :: _ => Except.error Err.typeError
    | PyVal.str s =>
        Except.error (Err.invalidParameterValue ("Unsupported default value: " ++ s))
  else if typ = "number" then
    Except.ok (some (WPSInp.literal { kwargs with
      data_type := some (match param.numberDataType with
        | NumberType.double => "float"
        | NumberType.integer => "integer"),
      allowed_values := some (AllowedVals.range param.minimum param.maximum) }))
  else if typ = "field" then
    Except.ok (some (WPSInp.literal { kwargs with
      data_type := some "string",
      metadata := kwargs.metadata ++
        [("processing:parentLayerParameterName", param.parentLayerParameterName),
         ("processing:dataType", param.fieldDataType.name)] }))
  else if typ = "crs" then
    Except.ok (some (WPSInp.literal { kwargs with data_type := some "string" }))
  else if typ = "band" then
    Except.ok (some (WPSInp.literal { kwargs with data_type := some "nonNegativeInteger" }))
  else
    Except.ok Option.none

/-- The _is_allowed closure of parse_allowed_layers: does a project layer
match the declared acceptable data types. -/
def layerAllowed (datatypes : List SourceType) (lyr : Layer) : Bool :=
  match lyr.layerKind with
  | LayerKind.vector =>
      (lyr.geometryKind = GeomKind.point ∧ SourceType.TypeVectorPoint ∈ datatypes)
      ∨ (lyr.geometryKind = GeomKind.line ∧ SourceType.TypeVectorLine ∈ datatypes)
      ∨ (lyr.geometryKind = GeomKind.polygon ∧ SourceType.TypeVectorPolygon ∈ datatypes)
      ∨ SourceType.TypeVectorAnyGeometry ∈ datatypes
      ∨ SourceType.TypeVector ∈ datatypes
      ∨ SourceType.TypeMapLayer ∈ datatypes
  | LayerKind.raster =>
      SourceType.TypeRaster ∈ datatypes ∨ SourceType.TypeMapLayer ∈ datatypes
  | LayerKind.other => false

/-- parse_allowed_layers: find candidate layers according to datatypes;
updates the kwargs (multilayer cardinality, dataTypes metadata, allowed
values from the project context). -/
def parse_allowed_layers (param : ParamDef) (kwargs : InputKwargs)
    (context : Option MapContext) : InputKwargs :=
  let kwargs :=
    if param.typ = "multilayer" then
      { kwargs with
        min_occurs := some (if param.minimumNumberInputs ≥ 1 then param.minimumNumberInputs else 0),
        max_occurs := some 20 }  -- XXX arbitrary number
    else kwargs
  let datatypes := if hasLimitedDataTypes param.kind then param.dataTypes else []
  let datatypes :=
    if datatypes.isEmpty then
      if isInputVectorLayerType param.kind then [SourceType.TypeVector]
      else if isInputRasterLayerType param.kind then [SourceType.TypeRaster]
      else if param.kind = ParamKind.multilayer then [param.layerType]
      else [SourceType.TypeMapLayer]
    else datatypes
  let kwargs := { kwargs with metadata := kwargs.metadata ++
    [("processing:dataTypes", strIntercalate "," (datatypes.map SourceType.name))] }
  match context with
  | Option.none => kwargs
  | Option.some ctx =>
      let allowed := (ctx.layers.filter (layerAllowed datatypes)).map Layer.name
      let kwargs := { kwargs with allowed_values := some (AllowedVals.options allowed) }
      if param.typ = "multilayer" then { kwargs with max_occurs := some allowed.length }
      else kwargs

/-- parse_layer_input: layer (and layer destination) inputs are passed as
layer-name strings. -/
def parse_layer_input (param : ParamDef) (kwargs : InputKwargs)
    (context : Option MapContext) : Option WPSInp :=
  if isInputLayerType param.kind then
    some (WPSInp.literal (parse_allowed_layers param { kwargs with data_type := some "string" } context))
  else if param.kind = ParamKind.rasterDestination then
    some (WPSInp.literal { kwargs with
      data_type := some "string",
      metadata := kwargs.metadata ++ [("processing:extension", param.defaultFileExtension)] })
  else if param.kind = ParamKind.vectorDestination ∨ param.kind = ParamKind.featureSink then
    some (WPSInp.literal { kwargs with
      data_type := some "string",
      metadata := kwargs.metadata ++
        [("processing:dataType", toString param.sinkDataType),
         ("processing:extension", param.defaultFileExtension)] })
  else Option.none

/-- parse_extent_input: the extent kind becomes a BoundingBoxInput with
the fixed default CRS. -/
def parse_extent_input (param : ParamDef) (kwargs : InputKwargs) : Option WPSInp :=
  if param.typ = "extent" then
    some (WPSInp.bbox { kwargs with crss := some ["EPSG:4326"] })
  else Option.none

/-- parse_file_input: file kind (folder behavior is a string literal, file
behavior a ComplexInput with format from the declared extension),
fileDestination and folderDestination string literals. -/
def parse_file_input (param : ParamDef) (kwargs : InputKwargs) : Option WPSInp :=
  if param.typ = "file" then
    if param.behavior = FileBehavior.folder then
      some (WPSInp.literal { kwargs with data_type := some "string" })
    else
      let kwargs :=
        if param.extension ≠ "" then
          let kwargs :=
            match mimetypes_types_map param.extension with
            | Option.some mime => { kwargs with supported_formats := some [mime] }
            | Option.none => kwargs
          { kwargs with metadata := kwargs.metadata ++ [("processing:extension", param.extension)] }
        else kwargs
      some (WPSInp.complex kwargs)
  else if param.typ = "fileDestination" then
    some (WPSInp.literal { kwargs with
      data_type := some "string",
      metadata := kwargs.metadata ++
        [("processing:format",
          (mimetypes_types_map ("." ++ param.defaultFileExtension)).getD "")] })
  else if param.typ = "folderDestination" then
    some (WPSInp.literal { kwargs with data_type := some "string" })
  else Option.none

/-- parse_point_input: the point kind becomes a ComplexInput accepting
GeoJSON or GML geometry. -/
def parse_point_input (param : ParamDef) (kwargs : InputKwargs) : Option WPSInp :=
  if param.kind = ParamKind.point then
    some (WPSInp.complex { kwargs with
      supported_formats := some ["application/vnd.geo+json", "application/gml+xml"] })
  else Option.none

/-- parse_metadata: append the descriptor's freeform metadata (key
prefixed, value stringified); the Python kwargs metadata list is shared by
reference with the already-constructed input, so the append lands in the
input's kwargs. -/
def parse_metadata (param : ParamDef) (inp : WPSInp) : WPSInp :=
  inp.mapKwargs (fun k => { k with metadata := k.metadata ++
    (param.metadataMap.map (fun kv => ("processing:meta:" ++ kv.1, kv.2.pyStr))) })

/-- The ordered matcher chain of parse_input_definition: the first
matcher recognizing the descriptor wins; no match is the unsupported-kind
error; freeform metadata is appended to the constructed input. -/
def parse_input_chain (param : ParamDef) (kwargs : InputKwargs)
    (context : Option MapContext) : Except Err WPSInp :=
  match parse_literal_input param kwargs with
  | Except.error e => Except.error e
  | Except.ok (Option.some inp) => Except.ok (parse_metadata param inp)
  | Except.ok Option.none =>
    match parse_layer_input param kwargs context with
    | Option.some inp => Except.ok (parse_metadata param inp)
    | Option.none =>
      match parse_extent_input param kwargs with
      | Option.some inp => Except.ok (parse_metadata param inp)
      | Option.none =>
        match parse_file_input param kwargs with
        | Option.some inp => Except.ok (parse_metadata param inp)
        | Option.none =>
          match parse_point_input param kwargs with
          | Option.some inp => Except.ok (parse_metadata param inp)
          | Option.none => Except.error (Err.inputTypeNotSupported param.typ)

/-- parse_input_definition: create the WPS input from a processing
parameter definition — shared kwargs preprocessing, optional-flag
cardinality, then the ordered matcher chain. -/
def parse_input_definition (param : ParamDef) (context : Option MapContext) :
    Except Err WPSInp :=
  let kwargs : InputKwargs := {
    identifier := param.name,
    title := strReplaceChar param.name '_' ' ',
    abstract := param.description,
    metadata := [("processing:type", param.typ)],
    default := param.defaultValue,
    min_occurs := Option.none, max_occurs := Option.none,
    data_type := Option.none, allowed_values := Option.none,
    supported_formats := Option.none, crss := Option.none }
  let kwargs := if _is_optional param then { kwargs with min_occurs := some 0 } else kwargs
  parse_input_chain param kwargs context

/-! ## Output descriptor translation -/

/-- Kind tag of the native output-descriptor classes; the tag determines
the isinstance checks (the modelled classes are leaves of the relevant
hierarchy: QgsProcessingOutputVectorLayer and
QgsProcessingOutputRasterLayer are the members of OUTPUT_LAYER_TYPES, and
QgsProcessingOutputMapLayer / QgsProcessingOutputMultipleLayers are
neither of them). -/
inductive OutKind where
  | outputString | outputNumber
  | outputVectorLayer | outputRasterLayer
  | outputMapLayer | outputMultipleLayers
  | outputHtml | outputFile
  | outputFolder
deriving Repr, DecidableEq

/-- The `type()` string of each modelled output class, as defined by
QGIS. -/
def OutKind.typeName : OutKind → String
  | OutKind.outputString => "outputString"
  | OutKind.outputNumber => "outputNumber"
  | OutKind.outputVectorLayer => "outputVector"
  | OutKind.outputRasterLayer => "outputRaster"
  | OutKind.outputMapLayer => "outputLayer"
  | OutKind.outputMultipleLayers => "outputMultilayer"
  | OutKind.outputHtml => "outputHtml"
  | OutKind.outputFile => "outputFile"
  | OutKind.outputFolder => "outputFolder"

structure OutDef where
  kind : OutKind
  name : String
  description : String
deriving Repr, DecidableEq

/-- isinstance(outdef, OUTPUT_LAYER_TYPES). -/
def isOutputLayerType (k : OutKind) : Bool :=
  k = OutKind.outputVectorLayer ∨ k = OutKind.outputRasterLayer

structure OutKwargs where
  identifier : String
  title : String
  abstract : String
deriving Repr, DecidableEq

/-- The two protocol output shapes produced by the source: LiteralOutput
(data-type tag) and ComplexOutput (supported formats and the as_reference
flag). -/
inductive WPSOut where
  | literal : OutKwargs → String → WPSOut
  | complex : OutKwargs → List String → Bool → WPSOut
deriving Repr, DecidableEq

/-- Modelled from the spec: the ComplexOutput constructor (module
pyqgiswps.inout, not under src/) takes an as_reference keyword that is
off when absent — per the spec a result is delivered as a reference only
when explicitly marked so (glossary: Reference output). -/
def ComplexOutput_default_as_reference : Bool := false

/-- The configuration service (confservice), restricted to the option the
source reads. -/
structure ConfService where
  outputfile_as_reference : Bool
deriving Repr, DecidableEq

/-- parse_literal_output. -/
def parse_literal_output (outdef : OutDef) (kwargs : OutKwargs) : Option WPSOut :=
  let typ := outdef.kind.typeName
  if typ = "outputString" then some (WPSOut.literal kwargs "string")
  else if typ = "outputNumber" then some (WPSOut.literal kwargs "float")
  else Option.none

/-- parse_layer_output: a layer output is merged to a qgis project and
advertised through OWS reference formats. -/
def parse_layer_output (outdef : OutDef) (kwargs : OutKwargs) : Option WPSOut :=
  if isOutputLayerType outdef.kind then
    if outdef.kind = OutKind.outputVectorLayer then
      some (WPSOut.complex kwargs ["application/x-ogc-wms", "application/x-ogc-wfs"] true)
    else if outdef.kind = OutKind.outputRasterLayer then
      some (WPSOut.complex kwargs ["application/x-ogc-wms", "application/x-ogc-wcs"] true)
    else
      some (WPSOut.complex kwargs ["application/x-ogc-wms"] true)
  else Option.none

/-- Lookup in the freeform metadata map of a descriptor
(dict.get semantics). -/
def lookupMeta (m : List (String × PyVal)) (key : String) : Option PyVal :=
  (m.find? (fun kv => kv.1 = key)).map (fun kv => kv.2)

/-- parse_file_output: HTML outputs advertise the HTML MIME type (the
computed as_reference configuration default is not passed in this branch,
so the ComplexOutput constructor default applies); generic file outputs
recover the MIME type and the as_reference override from the paired
fileDestination input descriptor of the same name, else fall back to
application/octet-stream (with a logged warning, not modelled). -/
def parse_file_output (outdef : OutDef) (kwargs : OutKwargs)
    (alg : Option (List ParamDef)) (conf : ConfService) : Option WPSOut :=
  let as_reference := conf.outputfile_as_reference
  if outdef.kind = OutKind.outputHtml then
    some (WPSOut.complex kwargs [(mimetypes_types_map ".html").getD ""]
      ComplexOutput_default_as_reference)
  else if outdef.kind = OutKind.outputFile then
    let mimeAndRef : Option String × Bool :=
      match alg with
      | Option.some params =>
          match params.find? (fun p => p.name = outdef.name) with
          | Option.some inputdef =>
              if inputdef.kind = ParamKind.fileDestination then
                (mimetypes_types_map ("." ++ inputdef.defaultFileExtension),
                 match lookupMeta inputdef.metadataMap "wps:as_reference" with
                 | Option.some v => v.truthy
                 | Option.none => as_reference)
              else (Option.none, as_reference)
          | Option.none => (Option.none, as_reference)
      | Option.none => (Option.none, as_reference)
    match mimeAndRef with
    | (Option.some mime, aref) => some (WPSOut.complex kwargs [mime] aref)
    | (Option.none, aref) => some (WPSOut.complex kwargs ["application/octet-stream"] aref)
  else Option.none

/-- parse_output_definition: create the WPS output through the ordered
matcher chain (the source name of the spec's translate_output). -/
def parse_output_definition (outdef : OutDef) (alg : Option (List ParamDef))
    (conf : ConfService) : Except Err WPSOut :=
  let kwargs : OutKwargs := {
    identifier := outdef.name,
    title := outdef.description,
    abstract := outdef.description }
  match parse_literal_output outdef kwargs with
  | Option.some out => Except.ok out
  | Option.none =>
    match parse_layer_output outdef kwargs with
    | Option.some out => Except.ok out
    | Option.none =>
      match parse_file_output outdef kwargs alg conf with
      | Option.some out => Except.ok out
      | Option.none => Except.error (Err.outputTypeNotSupported outdef.kind.typeName)

/-! ## Layer spec parsing and feature selection -/

/-- Selection behaviors of the external vector-layer API used by the
source. -/
inductive SelectBehavior where
  | setSelection | intersectSelection
deriving Repr, DecidableEq

/-- Feature ids of the layer lying inside a rectangle specification. -/
def Layer.featureIdsInRect (l : Layer) (r : String) : List Nat :=
  (l.features.filter (fun f => f.inRects.contains r)).map Feature.fid

/-- Feature ids of the layer satisfying a filter expression. -/
def Layer.featureIdsMatching (l : Layer) (e : String) : List Nat :=
  (l.features.filter (fun f => f.matchesExprs.contains e)).map Feature.fid

/-- Modelled from the spec: the external selection API either replaces
the current selection with the matched set or intersects the current
selection with it (spec section 4.5: rect replaces any prior selection,
the expression intersects with the rectangle result when one was
applied). -/
def applySelectBehavior (b : SelectBehavior) (old matched : List Nat) : List Nat :=
  match b with
  | SelectBehavior.setSelection => matched
  | SelectBehavior.intersectSelection => old.filter (fun f => matched.contains f)

/-- layer.selectByRect(rect, behavior). -/
def Layer.selectByRect (l : Layer) (r : String) (b : SelectBehavior) : Layer :=
  { l with selection := applySelectBehavior b l.selection (l.featureIdsInRect r) }

/-- layer.selectByExpression(expr, behavior). -/
def Layer.selectByExpression (l : Layer) (e : String) (b : SelectBehavior) : Layer :=
  { l with selection := applySelectBehavior b l.selection (l.featureIdsMatching e) }

/-- QgsRectangle built from the first four comma-separated components of
the rect query value; the rectangle is identified by the joined
components. -/
def rectKey (r : String) : String :=
  strIntercalate "," ((strSplitOnChar r ',').take 4)

/-- Selection stage of parse_layer_spec: apply the last rect value first
with SetSelection (switching the behavior to IntersectSelection), then
the last select expression with the current behavior. -/
def applyFeatureSelection (layer : Layer) (feat_rects feat_requests : List String) : Layer :=
  match feat_rects.getLast? with
  | Option.some r =>
      let layer1 := layer.selectByRect (rectKey r) SelectBehavior.setSelection
      match feat_requests.getLast? with
      | Option.some e => layer1.selectByExpression e SelectBehavior.intersectSelection
      | Option.none => layer1
  | Option.none =>
      match feat_requests.getLast? with
      | Option.some e => layer.selectByExpression e SelectBehavior.setSelection
      | Option.none => layer

/-- parse_layer_spec: parse a layer specification; returns the resolved
path, the has_selection flag, the context after the selection side
effect, and the logged warnings. -/
def parse_layer_spec (layerspec : String) (context : ProcessingContext)
    (allow_selection : Bool) :
    Except Err (String × Bool × ProcessingContext × List String) :=
  let u := pyUrlparse layerspec
  let presolved : Except Err String :=
    if u.scheme = "file" then Except.ok (context.resolve_path u.path)
    else if u.scheme ≠ "" ∧ u.scheme ≠ "layer" then
      Except.error (Err.invalidParameterValue ("Bad scheme: " ++ layerspec))
    else Except.ok u.path
  match presolved with
  | Except.error e => Except.error e
  | Except.ok p =>
    if ¬ allow_selection then Except.ok (p, false, context, [])
    else
      let feat_requests := pyParseQsGet u.query "select"
      let feat_rects := pyParseQsGet u.query "rect"
      if feat_rects.isEmpty ∧ feat_requests.isEmpty then Except.ok (p, false, context, [])
      else
        match context.getMapLayer p with
        | Option.none =>
            Except.error (Err.invalidParameterValue ("No layer '" ++ u.path ++ "' found"))
        | Option.some layer =>
          if layer.layerKind ≠ LayerKind.vector then
            Except.ok (p, true, context, ["Can apply selection only to vector layer"])
          else
            Except.ok (p, true,
              context.updateLayer p (applyFeatureSelection layer feat_rects feat_requests), [])

/-! ## Value decoding (input_to_processing) -/

/-- One submitted protocol input value: the raw data payload and, for
bounding boxes, the declared CRS. -/
structure InValue where
  data : String
  crs : String
deriving Repr, DecidableEq

/-- Decoded native argument values.  Point and extent payloads are decoded
by external libraries (OGR geometry parsing, QgsRectangle); they are
modelled opaquely carrying the raw submitted payload, and file staging
(input_to_file writes the payload into the working directory) is modelled
by the resulting file name parts; no claim depends on their internals. -/
inductive ProcValue where
  | none : ProcValue
  | str : String → ProcValue
  | int : Nat → ProcValue
  | intList : List Nat → ProcValue
  | strList : List String → ProcValue
  | outputLayerDef : String → Nat → String → ProcValue
  | featureSourceDef : String → Bool → ProcValue
  | point : String → ProcValue
  | extent : String → String → ProcValue
  | fileSaved : String → String → ProcValue
deriving Repr, DecidableEq

/-- Result of input_to_processing: the native (name, value) pair plus the
explicit effects of the call — the descriptor after mutation, the context
after selection side effects, and the logged warnings. -/
structure DecodeResult where
  name : String
  value : ProcValue
  param : ParamDef
  ctx : ProcessingContext
  warnings : List String
deriving Repr, DecidableEq

/-- The multi-value layer branch of input_to_processing: parse each
submitted value with selection disabled and collect the resolved paths. -/
def decodeLayerList (inp : List InValue) (context : ProcessingContext) :
    Except Err (List String) :=
  match inp with
  | [] => Except.ok []
  | v :: rest =>
    match parse_layer_spec v.data context false with
    | Except.error e => Except.error e
    | Except.ok (p, _, _, _) =>
      match decodeLayerList rest context with
      | Except.error e => Except.error e
      | Except.ok l => Except.ok (p :: l)

/-- The multi-value enum branch: map each submitted string to its index in
the option list (a missing string is a ValueError). -/
def pyIndexList (options : List String) (vals : List String) : Option (List Nat) :=
  match vals with
  | [] => some []
  | v :: rest =>
    match pyIndexOf options v with
    | Option.some i => (pyIndexList options rest).map (fun l => i :: l)
    | Option.none => Option.none

/-- input_to_processing: convert one WPS input (the ordered list of its
submitted values) to the processing argument of the parameter named
identifier.  Looking up a name the algorithm does not declare is an
AttributeError (None.type()).  An empty value list where a branch reads
inp[0] is an IndexError. -/
def input_to_processing (identifier : String) (inp : List InValue)
    (alg : List ParamDef) (context : ProcessingContext) : Except Err DecodeResult :=
  match alg.find? (fun p => p.name = identifier) with
  | Option.none => Except.error Err.attributeError
  | Option.some param =>
    if isDestinationLayerType param.kind then
      -- do not support memory: layers since the destination project is
      -- stored to file
      match inp with
      | [] => Except.error Err.indexError
      | v :: _ =>
        Except.ok {
          name := param.name,
          value := ProcValue.outputLayerDef
            ("./" ++ param.name ++ "." ++ param.defaultFileExtension)
            context.destination_project v.data,
          param := { param with supportsNonFileBasedOutput := false },
          ctx := context, warnings := [] }
    else if param.kind = ParamKind.featureSource then
      match inp with
      | [] => Except.error Err.indexError
      | v :: _ =>
        match parse_layer_spec v.data context true with
        | Except.error e => Except.error e
        | Except.ok (p, has_selection, ctx1, warns) =>
          Except.ok {
          name := param.name,
            value := ProcValue.featureSourceDef p has_selection,
            param := param, ctx := ctx1, warnings := warns }
    else if isInputLayerType param.kind then
      if inp.length > 1 then
        match decodeLayerList inp context with
        | Except.error e => Except.error e
        | Except.ok l =>
          Except.ok {
          name := param.name, value := ProcValue.strList l,
            param := param, ctx := context, warnings := [] }
      else
        match inp with
        | [] => Except.error Err.indexError
        | v :: _ =>
          match parse_layer_spec v.data context false with
          | Except.error e => Except.error e
          | Except.ok (p, _, _, _) =>
            Except.ok {
          name := param.name, value := ProcValue.str p,
              param := param, ctx := context, warnings := [] }
    else if param.kind = ParamKind.point then
      match inp with
      | [] => Except.error Err.indexError
      | v :: _ =>
        Except.ok {
          name := param.name, value := ProcValue.point v.data,
          param := param, ctx := context, warnings := [] }
    else if param.typ = "enum" then
      -- XXX processing wants the index of the value in the option list
      if param.allowMultiple ∧ inp.length > 1 then
        match pyIndexList param.options (inp.map InValue.data) with
        | Option.some l =>
          Except.ok {
          name := param.name, value := ProcValue.intList l,
            param := param, ctx := context, warnings := [] }
        | Option.none => Except.error Err.valueError
      else
        match inp with
        | [] => Except.error Err.indexError
        | v :: _ =>
          match pyIndexOf param.options v.data with
          | Option.some i =>
            Except.ok {
          name := param.name, value := ProcValue.int i,
              param := param, ctx := context, warnings := [] }
          | Option.none => Except.error Err.valueError
    else if param.typ = "extent" then
      match inp with
      | [] => Except.error Err.indexError
      | v :: _ =>
        Except.ok {
          name := param.name, value := ProcValue.extent v.data v.crs,
          param := param, ctx := context, warnings := [] }
    else if param.typ = "crs" then
      match inp with
      | [] => Except.error Err.indexError
      | v :: _ =>
        Except.ok {
          name := param.name, value := ProcValue.str v.data,
          param := param, ctx := context, warnings := [] }
    else if param.typ = "fileDestination" ∨ param.typ = "folderDestination" then
      match inp with
      | [] => Except.error Err.indexError
      | v :: _ =>
        let value := pyBasename (pyNormpath v.data)
        Except.ok {
          name := param.name, value := ProcValue.str value,
          param := param, ctx := context,
          warnings :=
            if value ≠ v.data then
              ["Value for file or folder destination '" ++ identifier ++
               "' has been truncated from '" ++ v.data ++ "' to '" ++ value ++ "'"]
            else [] }
    else if param.typ = "file" then
      match inp with
      | [] => Except.error Err.indexError
      | _ :: _ =>
        Except.ok {
          name := param.name,
          value := ProcValue.fileSaved param.name param.extension,
          param := param, ctx := context, warnings := [] }
    else
      match inp with
      | v :: _ =>
        -- return the raw value
        Except.ok {
          name := param.name, value := ProcValue.str v.data,
          param := param, ctx := context, warnings := [] }
      | [] =>
        -- return an undefined value
        Except.ok {
          name := param.name, value := ProcValue.none,
          param := param, ctx := context,
          warnings :=
            if ¬ _is_optional param then
              ["Required input " ++ identifier ++ " has no value"]
            else [] }

/-! ## Accessors shared by the claim statements -/

/-- The default advertised by the translated input of a descriptor. -/
def advertisedDefault (param : ParamDef) (context : Option MapContext) : Option PyVal :=
  (parse_input_definition param context).toOption.map (fun w => w.kwargs.default)

/-- The native value produced by a decode run. -/
def decodedValue (r : Except Err DecodeResult) : Option ProcValue :=
  r.toOption.map DecodeResult.value

/-- A base parameter descriptor with neutral accessor values, used to
build the concrete descriptors of the witnesses. -/
def baseParam : ParamDef := {
  kind := ParamKind.string, name := "p", description := "", optional := false,
  defaultValue := PyVal.none, options := [], allowMultiple := false,
  numberDataType := NumberType.double, minimum := 0, maximum := 0,
  parentLayerParameterName := "", fieldDataType := FieldType.any,
  dataTypes := [], layerType := SourceType.TypeMapLayer, minimumNumberInputs := 0,
  behavior := FileBehavior.file, extension := "", defaultFileExtension := "",
  sinkDataType := 0, metadataMap := [], supportsNonFileBasedOutput := true }

/-- An enum parameter descriptor. -/
def mkEnumParam (name : String) (options : List String) (default : PyVal)
    (allowMultiple : Bool) : ParamDef :=
  { baseParam with
    kind := ParamKind.enum, name := name, options := options,
    defaultValue := default, allowMultiple := allowMultiple }

/-! ## Concrete fixtures for the witnesses -/

def wF1 : Feature := { fid := 1, inRects := ["0,0,1,1"], matchesExprs := ["E"] }

def wF2 : Feature := { fid := 2, inRects := ["0,0,1,1"], matchesExprs := [] }

def wF3 : Feature := { fid := 3, inRects := [], matchesExprs := ["E"] }

def wVectorLayer : Layer :=
  { name := "lay", layerKind := LayerKind.vector, geometryKind := GeomKind.polygon,
    features := [wF1, wF2, wF3], selection := [3] }

def wVectorCtx : ProcessingContext :=
  { rootdir := "/root", layers := [wVectorLayer], destination_project := 7 }

def wRasterLayer : Layer :=
  { name := "rl", layerKind := LayerKind.raster, geometryKind := GeomKind.other,
    features := [wF1], selection := [] }

def wRasterCtx : ProcessingContext :=
  { rootdir := "/root", layers := [wRasterLayer], destination_project := 7 }

/-! # Theorems -/

/-- A list with a last element is not empty. -/
theorem isEmpty_eq_false_of_getLast {α : Type} {l : List α} {x : α}
    (h : l.getLast? = some x) : l.isEmpty = false := by
  cases l with
  | nil => simp at h
  | cons a t => rfl

/-- Python list.index finds the first occurrence: at an index whose
element occurs at no earlier position, it returns that index. -/
theorem pyIndexOf_first (O : List String) (i : Nat) (h : i < O.length)
    (hfirst : ∀ j (hj : j < i), O.get ⟨j, Nat.lt_trans hj h⟩ ≠ O.get ⟨i, h⟩) :
    pyIndexOf O (O.get ⟨i, h⟩) = some i := by
  induction O generalizing i with
  | nil => simp at h
  | cons a rest ih =>
    cases i with
    | zero => simp [pyIndexOf]
    | succ n =>
      have hn : n < rest.length := Nat.lt_of_succ_lt_succ h
      have hne : a ≠ (a :: rest).get ⟨n + 1, h⟩ := hfirst 0 (Nat.succ_pos n)
      have hfirst' : ∀ j (hj : j < n),
          rest.get ⟨j, Nat.lt_trans hj hn⟩ ≠ rest.get ⟨n, hn⟩ := by
        intro j hj
        have := hfirst (j + 1) (Nat.succ_lt_succ hj)
        simpa using this
      have hrec := ih n hn hfirst'
      simp only [List.get_cons_succ] at hne ⊢
      simp only [pyIndexOf, List.get_eq_getElem] at hne hrec ⊢
      rw [if_neg hne, hrec]
      rfl

/-- Python list.index returns an in-range index pointing at the searched
element. -/
theorem pyIndexOf_spec (l : List String) (x : String) (j : Nat)
    (hfound : pyIndexOf l x = some j) : ∃ (hj : j < l.length), l.get ⟨j, hj⟩ = x := by
  induction l generalizing j with
  | nil => simp [pyIndexOf] at hfound
  | cons a rest ih =>
    by_cases hax : a = x
    · simp [pyIndexOf, hax] at hfound
      subst hfound
      exact ⟨Nat.succ_pos _, hax⟩
    · simp [pyIndexOf, hax] at hfound
      obtain ⟨m, hm, rfl⟩ := hfound
      obtain ⟨hmlt, hget⟩ := ih m hm
      exact ⟨Nat.succ_lt_succ hmlt, by simpa using hget⟩

/-- Python indexing at a valid natural index. -/
theorem pyListGet_ofNat (l : List String) (j : Nat) (hj : j < l.length) :
    pyListGet l (j : Int) = some (l.get ⟨j, hj⟩) := by
  have h0 : ¬ ((j : Int) < 0) := by omega
  have hcond : 0 ≤ (j : Int) ∧ (j : Int) < (l.length : Int) := by
    constructor <;> omega
  simp only [pyListGet, if_neg h0, dif_pos hcond]
  congr 1

/-- C1 counterexample: with the duplicated option list ["a", "a"] and
native default index 1, the translator advertises the option string "a"
(the string at index 1), but decoding that same string through the enum
branch of input_to_processing yields index 0, the first occurrence — not
index 1: the two conversions are not mutual inverses for every in-range
index. -/
theorem enum_roundtrip_duplicate_counterexample :
    advertisedDefault (mkEnumParam "p" ["a", "a"] (PyVal.int 1) false) Option.none
      = some (PyVal.str "a")
    ∧ decodedValue (input_to_processing "p" [{ data := "a", crs := "" }]
        [mkEnumParam "p" ["a", "a"] (PyVal.int 1) false]
        { rootdir := "", layers := [], destination_project := 0 })
      = some (ProcValue.int 0)
    ∧ decodedValue (input_to_processing "p" [{ data := "a", crs := "" }]
        [mkEnumParam "p" ["a", "a"] (PyVal.int 1) false]
        { rootdir := "", layers := [], destination_project := 0 })
      ≠ some (ProcValue.int 1) := by
  refine ⟨rfl, rfl, ?_⟩
  decide

/-- C1 amended: for an enum descriptor with option list O and native
default index i in range, the translator advertises the option string at
index i as the protocol default; decoding that string yields index i
again whenever the string does not occur at an earlier position of O (in
particular whenever the options are pairwise distinct); and in the other
direction, decoding any submitted option string yields the index of its
first occurrence, which the translator advertises back as the same
string. -/
theorem enum_default_roundtrip (name : String) (O : List String) (i : Nat)
    (h : i < O.length)
    (hfirst : ∀ j (hj : j < i), O.get ⟨j, Nat.lt_trans hj h⟩ ≠ O.get ⟨i, h⟩)
    (am : Bool) (ctx : ProcessingContext) :
    advertisedDefault (mkEnumParam name O (PyVal.int i) am) Option.none
      = some (PyVal.str (O.get ⟨i, h⟩))
    ∧ decodedValue (input_to_processing name [{ data := O.get ⟨i, h⟩, crs := "" }]
        [mkEnumParam name O (PyVal.int i) am] ctx)
      = some (ProcValue.int i)
    ∧ ∀ (s : String) (j : Nat), pyIndexOf O s = some j →
        advertisedDefault (mkEnumParam name O (PyVal.int j) am) Option.none
          = some (PyVal.str s) := by
  refine ⟨?_, ?_, ?_⟩
  · unfold advertisedDefault parse_input_definition
    simp only [mkEnumParam, baseParam, _is_optional, Bool.false_eq_true, if_false]
    unfold parse_input_chain
    simp [parse_literal_input, ParamDef.typ, ParamKind.typeName,
      pyListGet_ofNat O i h, parse_metadata, WPSInp.mapKwargs, WPSInp.kwargs,
      Except.toOption]
  · have hidx := pyIndexOf_first O i h hfirst
    simp only [List.get_eq_getElem] at hidx
    simp [decodedValue, input_to_processing, List.find?, mkEnumParam, baseParam,
      isDestinationLayerType, isInputLayerType, isInputVectorLayerType,
      isInputRasterLayerType, isInputOtherLayerType, ParamDef.typ,
      ParamKind.typeName, hidx, Except.toOption]
  · intro s j hfound
    obtain ⟨hj, hget⟩ := pyIndexOf_spec O s j hfound
    subst hget
    unfold advertisedDefault parse_input_definition
    simp only [mkEnumParam, baseParam, _is_optional, Bool.false_eq_true, if_false]
    unfold parse_input_chain
    simp [parse_literal_input, ParamDef.typ, ParamKind.typeName,
      pyListGet_ofNat O j hj, parse_metadata, WPSInp.mapKwargs, WPSInp.kwargs,
      Except.toOption]

/-- Witness for enum_default_roundtrip: option list ["x", "y", "z"] with
default index 2 advertises "z" and decodes "z" back to index 2. -/
theorem enum_default_roundtrip_witness :
    advertisedDefault (mkEnumParam "p" ["x", "y", "z"] (PyVal.int 2) false) Option.none
      = some (PyVal.str "z")
    ∧ decodedValue (input_to_processing "p" [{ data := "z", crs := "" }]
        [mkEnumParam "p" ["x", "y", "z"] (PyVal.int 2) false]
        { rootdir := "", layers := [], destination_project := 0 })
      = some (ProcValue.int 2) := by
  have h := enum_default_roundtrip "p" ["x", "y", "z"] 2 (by decide)
    (by decide) false { rootdir := "", layers := [], destination_project := 0 }
  exact ⟨h.1, h.2.1⟩

/-- C4: for every layer spec string, parse_layer_spec resolves a
file-scheme spec's path component through the context path resolver,
passes the path through unchanged for a layer scheme or no scheme, and
fails with InvalidParameterValue for every other scheme; in particular
layer:mylayer and mylayer both resolve to mylayer and ftp://x fails with
InvalidParameterValue. -/
theorem layer_spec_scheme (ctx : ProcessingContext) (spec : String) :
    ((pyUrlparse spec).scheme = "file" →
      parse_layer_spec spec ctx false =
        Except.ok (ctx.resolve_path (pyUrlparse spec).path, false, ctx, []))
    ∧ ((pyUrlparse spec).scheme = "" ∨ (pyUrlparse spec).scheme = "layer" →
      parse_layer_spec spec ctx false =
        Except.ok ((pyUrlparse spec).path, false, ctx, []))
    ∧ ((pyUrlparse spec).scheme ≠ "file" → (pyUrlparse spec).scheme ≠ "" →
        (pyUrlparse spec).scheme ≠ "layer" →
      ∀ b : Bool, parse_layer_spec spec ctx b =
        Except.error (Err.invalidParameterValue ("Bad scheme: " ++ spec)))
    ∧ parse_layer_spec "layer:mylayer" ctx false = Except.ok ("mylayer", false, ctx, [])
    ∧ parse_layer_spec "mylayer" ctx false = Except.ok ("mylayer", false, ctx, [])
    ∧ ∀ b : Bool, parse_layer_spec "ftp://x" ctx b =
        Except.error (Err.invalidParameterValue "Bad scheme: ftp://x") := by
  refine ⟨?_, ?_, ?_, rfl, rfl, ?_⟩
  · intro h
    simp [parse_layer_spec, h]
  · intro h
    rcases h with h | h <;> simp [parse_layer_spec, h]
  · intro h1 h2 h3 b
    simp [parse_layer_spec, if_neg h1, h2, h3]
  · intro b
    cases b <;> rfl

/-- Witness for layer_spec_scheme: a file-scheme spec resolves through
the concrete context's root, the concrete no-scheme and layer-scheme
specs pass through, and a concrete ftp spec fails. -/
theorem layer_spec_scheme_witness :
    parse_layer_spec "file:a/b" { rootdir := "/root", layers := [], destination_project := 0 }
        false =
      Except.ok ("/root/a/b", false,
        { rootdir := "/root", layers := [], destination_project := 0 }, [])
    ∧ parse_layer_spec "layer:mylayer"
        { rootdir := "/root", layers := [], destination_project := 0 } false =
      Except.ok ("mylayer", false,
        { rootdir := "/root", layers := [], destination_project := 0 }, []) := by
  have h := layer_spec_scheme { rootdir := "/root", layers := [], destination_project := 0 }
    "file:a/b"
  exact ⟨by simpa using h.1 (by decide), h.2.2.2.1⟩

/-- The descriptor type string is "multilayer" exactly for the
multilayer kind. -/
theorem typ_eq_multilayer_iff (param : ParamDef) :
    param.typ = "multilayer" ↔ param.kind = ParamKind.multilayer := by
  cases hk : param.kind <;> simp [ParamDef.typ, ParamKind.typeName, hk]

/-- parse_metadata only appends metadata: min_occurs is preserved. -/
theorem parse_metadata_min_occurs (param : ParamDef) (inp : WPSInp) :
    (parse_metadata param inp).kwargs.min_occurs = inp.kwargs.min_occurs := by
  cases inp <;> rfl

/-- parse_literal_input never touches min_occurs. -/
theorem parse_literal_input_min_occurs (param : ParamDef) (kwargs : InputKwargs)
    (inp : WPSInp) (h : parse_literal_input param kwargs = Except.ok (some inp)) :
    inp.kwargs.min_occurs = kwargs.min_occurs := by
  cases hk : param.kind <;>
    simp only [parse_literal_input, ParamDef.typ, hk, ParamKind.typeName,
      String.reduceEq, if_false, if_true, reduceIte] at h <;>
    (repeat' split at h) <;>
    simp only [Except.ok.injEq, Option.some.injEq, reduceCtorEq] at h <;>
    (try subst h) <;>
    (try rfl)

/-- parse_allowed_layers leaves min_occurs unchanged for any kind other
than multilayer. -/
theorem parse_allowed_layers_min_occurs (param : ParamDef) (kwargs : InputKwargs)
    (context : Option MapContext) (hml : param.kind ≠ ParamKind.multilayer) :
    (parse_allowed_layers param kwargs context).min_occurs = kwargs.min_occurs := by
  have hs : ¬ (param.typ = "multilayer") := fun hc =>
    hml ((typ_eq_multilayer_iff param).mp hc)
  unfold parse_allowed_layers
  simp only [if_neg hs]
  cases context <;> simp [if_neg hs]

/-- parse_layer_input preserves min_occurs for any kind other than
multilayer. -/
theorem parse_layer_input_min_occurs (param : ParamDef) (kwargs : InputKwargs)
    (context : Option MapContext) (inp : WPSInp)
    (hml : param.kind ≠ ParamKind.multilayer)
    (h : parse_layer_input param kwargs context = some inp) :
    inp.kwargs.min_occurs = kwargs.min_occurs := by
  unfold parse_layer_input at h
  split_ifs at h <;> simp only [Option.some.injEq] at h <;> subst h
  · simpa [WPSInp.kwargs] using
      parse_allowed_layers_min_occurs param { kwargs with data_type := some "string" }
        context hml
  · rfl
  · rfl

/-- parse_extent_input preserves min_occurs. -/
theorem parse_extent_input_min_occurs (param : ParamDef) (kwargs : InputKwargs)
    (inp : WPSInp) (h : parse_extent_input param kwargs = some inp) :
    inp.kwargs.min_occurs = kwargs.min_occurs := by
  unfold parse_extent_input at h
  split_ifs at h <;> simp only [Option.some.injEq] at h
  subst h
  rfl

/-- parse_file_input preserves min_occurs. -/
theorem parse_file_input_min_occurs (param : ParamDef) (kwargs : InputKwargs)
    (inp : WPSInp) (h : parse_file_input param kwargs = some inp) :
    inp.kwargs.min_occurs = kwargs.min_occurs := by
  cases hk : param.kind <;>
    simp only [parse_file_input, ParamDef.typ, hk, ParamKind.typeName,
      String.reduceEq, if_false, if_true, reduceIte] at h <;>
    (repeat' split at h) <;>
    simp only [Option.some.injEq, reduceCtorEq] at h <;>
    (try subst h) <;>
    (try rfl)

/-- parse_point_input preserves min_occurs. -/
theorem parse_point_input_min_occurs (param : ParamDef) (kwargs : InputKwargs)
    (inp : WPSInp) (h : parse_point_input param kwargs = some inp) :
    inp.kwargs.min_occurs = kwargs.min_occurs := by
  unfold parse_point_input at h
  split_ifs at h <;> simp only [Option.some.injEq] at h
  subst h
  rfl

theorem parse_input_chain_min_occurs (param : ParamDef) (kwargs : InputKwargs)
    (context : Option MapContext) (w : WPSInp)
    (hml : param.kind ≠ ParamKind.multilayer)
    (h : parse_input_chain param kwargs context = Except.ok w) :
    w.kwargs.min_occurs = kwargs.min_occurs := by
  unfold parse_input_chain at h
  split at h
  · exact absurd h (by simp)
  · rename_i inp heq
    simp only [Except.ok.injEq] at h
    subst h
    rw [parse_metadata_min_occurs]
    exact parse_literal_input_min_occurs param kwargs inp heq
  · split at h
    · rename_i inp heq
      simp only [Except.ok.injEq] at h
      subst h
      rw [parse_metadata_min_occurs]
      exact parse_layer_input_min_occurs param kwargs context inp hml heq
    · split at h
      · rename_i inp heq
        simp only [Except.ok.injEq] at h
        subst h
        rw [parse_metadata_min_occurs]
        exact parse_extent_input_min_occurs param kwargs inp heq
      · split at h
        · rename_i inp heq
          simp only [Except.ok.injEq] at h
          subst h
          rw [parse_metadata_min_occurs]
          exact parse_file_input_min_occurs param kwargs inp heq
        · split at h
          · rename_i inp heq
            simp only [Except.ok.injEq] at h
            subst h
            rw [parse_metadata_min_occurs]
            exact parse_point_input_min_occurs param kwargs inp heq
          · exact absurd h (by simp)

/-- C3: for every supported descriptor of a kind other than multilayer
(the one kind with its own cardinality rule), the translated input has
min_occurs = 0 exactly when the native descriptor carries the optional
flag; a non-optional descriptor always translates with min_occurs = 1
(the constructor default). -/
theorem optional_iff_min_occurs_zero (param : ParamDef) (context : Option MapContext)
    (w : WPSInp) (hml : param.kind ≠ ParamKind.multilayer)
    (h : parse_input_definition param context = Except.ok w) :
    (w.minOccurs = 0 ↔ param.optional = true) := by
  unfold parse_input_definition at h
  cases hopt : param.optional
  · simp only [_is_optional, hopt, Bool.false_eq_true, if_false] at h
    have hw := parse_input_chain_min_occurs param _ context w hml h
    simp only [WPSInp.minOccurs, hw]
    simp
  · simp only [_is_optional, hopt, if_true] at h
    have hw := parse_input_chain_min_occurs param _ context w hml h
    simp only [WPSInp.minOccurs, hw]
    simp

/-- Witness for optional_iff_min_occurs_zero: an optional string
parameter translates with min_occurs = 0, a required one with
min_occurs = 1. -/
theorem optional_iff_min_occurs_zero_witness :
    (∃ w, parse_input_definition { baseParam with optional := true } Option.none
        = Except.ok w ∧ w.minOccurs = 0)
    ∧ (∃ w, parse_input_definition baseParam Option.none
        = Except.ok w ∧ w.minOccurs = 1) := by
  constructor
  · refine ⟨_, rfl, ?_⟩
    have h := optional_iff_min_occurs_zero { baseParam with optional := true }
      Option.none _ (by decide) rfl
    exact h.mpr rfl
  · refine ⟨_, rfl, ?_⟩
    have h := optional_iff_min_occurs_zero baseParam Option.none _ (by decide) rfl
    have h2 : ¬ (WPSInp.minOccurs _ = 0) := fun hc => by
      have := h.mp hc
      simp [baseParam] at this
    -- the only other possible value of the default is 1
    revert h2
    decide

/-- C5: for a layer spec targeting an existing vector layer with
selection enabled, when the query carries both a rect and a select
parameter the final selection equals the rectangle selection intersected
with the expression selection (the rectangle is applied first, replacing
any prior selection, and the expression is applied with intersect
behavior); when only select is present the expression selection replaces
the prior selection. -/
theorem selection_combinator :
    (∀ (spec : String) (ctx : ProcessingContext) (layer : Layer) (r e : String),
      (pyUrlparse spec).scheme = "" →
      (pyParseQsGet (pyUrlparse spec).query "rect").getLast? = some r →
      (pyParseQsGet (pyUrlparse spec).query "select").getLast? = some e →
      ctx.getMapLayer (pyUrlparse spec).path = some layer →
      layer.layerKind = LayerKind.vector →
      parse_layer_spec spec ctx true =
        Except.ok ((pyUrlparse spec).path, true,
          ctx.updateLayer (pyUrlparse spec).path
            { layer with
              selection := (layer.featureIdsInRect (rectKey r)).filter
                (fun f => (layer.featureIdsMatching e).contains f) }, []))
    ∧ (∀ (spec : String) (ctx : ProcessingContext) (layer : Layer) (e : String),
      (pyUrlparse spec).scheme = "" →
      pyParseQsGet (pyUrlparse spec).query "rect" = [] →
      (pyParseQsGet (pyUrlparse spec).query "select").getLast? = some e →
      ctx.getMapLayer (pyUrlparse spec).path = some layer →
      layer.layerKind = LayerKind.vector →
      parse_layer_spec spec ctx true =
        Except.ok ((pyUrlparse spec).path, true,
          ctx.updateLayer (pyUrlparse spec).path
            { layer with selection := layer.featureIdsMatching e }, [])) := by
  constructor
  · intro spec ctx layer r e hscheme hrect hsel hmap hkind
    have hrne := isEmpty_eq_false_of_getLast hrect
    simp [parse_layer_spec, hscheme, hrne, hmap, hkind, applyFeatureSelection,
      hrect, hsel, Layer.selectByRect, Layer.selectByExpression,
      applySelectBehavior, Layer.featureIdsInRect, Layer.featureIdsMatching]
  · intro spec ctx layer e hrectnil hscheme hsel hmap hkind
    have hsne := isEmpty_eq_false_of_getLast hsel
    simp [parse_layer_spec, hscheme, hrectnil, hsne, hmap, hkind,
      applyFeatureSelection, hsel, Layer.selectByExpression,
      applySelectBehavior, Layer.featureIdsMatching]

/-- Witness for selection_combinator: on the concrete vector layer, rect
plus select yields the intersection {1} of the rectangle selection {1, 2}
and the expression selection {1, 3}; select alone replaces the prior
selection {3} with {1, 3}. -/
theorem selection_combinator_witness :
    parse_layer_spec "lay?rect=0,0,1,1&select=E" wVectorCtx true =
      Except.ok ("lay", true,
        wVectorCtx.updateLayer "lay" { wVectorLayer with selection := [1] }, [])
    ∧ parse_layer_spec "lay?select=E" wVectorCtx true =
      Except.ok ("lay", true,
        wVectorCtx.updateLayer "lay" { wVectorLayer with selection := [1, 3] }, []) := by
  constructor
  · have h := selection_combinator.1 "lay?rect=0,0,1,1&select=E" wVectorCtx
      wVectorLayer "0,0,1,1" "E" (by decide) (by decide) (by decide) (by decide) (by decide)
    simpa using h
  · have h := selection_combinator.2 "lay?select=E" wVectorCtx wVectorLayer "E"
      (by decide) (by decide) (by decide) (by decide) (by decide)
    simpa using h

/-- C10: with selection enabled and a rect or select query parameter
present, a spec resolving to an existing layer that is not a vector layer
still reports has_selection = true: parse_layer_spec only logs a warning,
applies no selection (the context is unchanged), and the feature-source
branch of input_to_processing then builds a feature-source reference
marked selected-features-only although nothing was selected. -/
theorem nonvector_selection_flag (spec : String) (ctx : ProcessingContext)
    (layer : Layer) (param : ParamDef)
    (hscheme : (pyUrlparse spec).scheme = "")
    (hq : ¬ (pyParseQsGet (pyUrlparse spec).query "rect" = []
          ∧ pyParseQsGet (pyUrlparse spec).query "select" = []))
    (hmap : ctx.getMapLayer (pyUrlparse spec).path = some layer)
    (hkind : layer.layerKind ≠ LayerKind.vector)
    (hp : param.kind = ParamKind.featureSource) :
    parse_layer_spec spec ctx true =
      Except.ok ((pyUrlparse spec).path, true, ctx,
        ["Can apply selection only to vector layer"])
    ∧ input_to_processing param.name [{ data := spec, crs := "" }] [param] ctx =
      Except.ok {
        name := param.name,
        value := ProcValue.featureSourceDef (pyUrlparse spec).path true,
        param := param, ctx := ctx,
        warnings := ["Can apply selection only to vector layer"] } := by
  have h1 : parse_layer_spec spec ctx true =
      Except.ok ((pyUrlparse spec).path, true, ctx,
        ["Can apply selection only to vector layer"]) := by
    simp [parse_layer_spec, hscheme, hmap, hkind]
    intro hr hs
    exact absurd ⟨hr, hs⟩ hq
  refine ⟨h1, ?_⟩
  simp [input_to_processing, List.find?, hp, isDestinationLayerType, h1]

/-- Witness for nonvector_selection_flag: a select query against the
concrete raster layer yields has_selection = true, an unchanged context
and the warning, and the decoded feature source is marked
selected-features-only. -/
theorem nonvector_selection_flag_witness :
    parse_layer_spec "rl?select=E" wRasterCtx true =
      Except.ok ("rl", true, wRasterCtx, ["Can apply selection only to vector layer"])
    ∧ input_to_processing "p" [{ data := "rl?select=E", crs := "" }]
        [{ baseParam with kind := ParamKind.featureSource }] wRasterCtx =
      Except.ok {
        name := "p",
        value := ProcValue.featureSourceDef "rl" true,
        param := { baseParam with kind := ParamKind.featureSource },
        ctx := wRasterCtx,
        warnings := ["Can apply selection only to vector layer"] } := by
  have h := nonvector_selection_flag "rl?select=E" wRasterCtx wRasterLayer
    { baseParam with kind := ParamKind.featureSource }
    (by decide) (by decide) (by decide) (by decide) rfl
  exact ⟨by simpa using h.1, by simpa using h.2⟩

/-- C2: for every destination-sink parameter (feature sink, vector
destination, raster destination) and every submitted value list,
input_to_processing disables non-file-based output on the descriptor,
builds an output-layer definition whose sink path is synthesized from the
parameter name joined with the descriptor's default file extension (the
submitted value appears only as the destination display name), and the
sink path ends with the dot-prefixed default extension. -/
theorem destination_sink_decode (param : ParamDef)
    (hk : isDestinationLayerType param.kind = true)
    (v : InValue) (rest : List InValue) (ctx : ProcessingContext) :
    input_to_processing param.name (v :: rest) [param] ctx =
      Except.ok {
        name := param.name,
        value := ProcValue.outputLayerDef
          ("./" ++ param.name ++ "." ++ param.defaultFileExtension)
          ctx.destination_project v.data,
        param := { param with supportsNonFileBasedOutput := false },
        ctx := ctx, warnings := [] }
    ∧ ("." ++ param.defaultFileExtension).data <:+
        ("./" ++ param.name ++ "." ++ param.defaultFileExtension).data := by
  constructor
  · simp [input_to_processing, List.find?, hk]
  · refine ⟨("./" ++ param.name).data, ?_⟩
    simp [String.data_append]

/-- Witness for destination_sink_decode at a concrete feature-sink
descriptor with extension gpkg and submitted display name. -/
theorem destination_sink_decode_witness :
    input_to_processing "p"
        [{ data := "My Layer", crs := "" }]
        [{ baseParam with kind := ParamKind.featureSink, defaultFileExtension := "gpkg" }]
        { rootdir := "/root", layers := [], destination_project := 7 } =
      Except.ok {
        name := "p",
        value := ProcValue.outputLayerDef "./p.gpkg" 7 "My Layer",
        param := { baseParam with
                   kind := ParamKind.featureSink,
                   defaultFileExtension := "gpkg", supportsNonFileBasedOutput := false },
        ctx := { rootdir := "/root", layers := [], destination_project := 7 },
        warnings := [] } :=
  (destination_sink_decode
    { baseParam with kind := ParamKind.featureSink, defaultFileExtension := "gpkg" }
    (by decide) { data := "My Layer", crs := "" } []
    { rootdir := "/root", layers := [], destination_project := 7 }).1

/-- C6: evaluation at the failing input: for an HTML output definition,
parse_output_definition yields a Complex output whose single supported
format is the HTML MIME type, but whose as_reference mode is the
ComplexOutput constructor default (false) even when the configuration
flag outputfile_as_reference is true — the source computes the
configuration default and then fails to pass it in the HTML branch, so
the result is independent of the configuration. -/
theorem html_output_drops_config_reference :
    parse_output_definition { kind := OutKind.outputHtml, name := "o", description := "d" }
        Option.none { outputfile_as_reference := true } =
      Except.ok (WPSOut.complex { identifier := "o", title := "d", abstract := "d" }
        ["text/html"] false)
    ∧ parse_output_definition { kind := OutKind.outputHtml, name := "o", description := "d" }
        Option.none { outputfile_as_reference := true } =
      parse_output_definition { kind := OutKind.outputHtml, name := "o", description := "d" }
        Option.none { outputfile_as_reference := false } := by
  exact ⟨rfl, rfl⟩

/-- C7 counterexample: a layer-output kind other than vector or raster
(the generic map-layer output) does not yield a WMS-only Complex output:
it is rejected by every matcher and translation fails with
the unsupported-output error, because the WMS-only arm of
parse_layer_output is unreachable (the outer OUTPUT_LAYER_TYPES check
admits only the vector and raster classes). -/
theorem other_layer_output_not_translated :
    parse_output_definition { kind := OutKind.outputMapLayer, name := "o", description := "d" }
        Option.none { outputfile_as_reference := false } =
      Except.error (Err.outputTypeNotSupported "outputLayer") := by
  exact rfl

/-- C7 amended: a vector layer output yields a Complex output with
supported formats WMS+WFS, a raster layer output WMS+WCS, both with
as_reference true; any other layer-output kind (generic map layer,
multiple layers) is not matched by the layer matcher and translation
fails with the unsupported-output error. -/
theorem layer_output_formats (name desc : String) (alg : Option (List ParamDef))
    (conf : ConfService) :
    parse_output_definition { kind := OutKind.outputVectorLayer, name := name, description := desc }
        alg conf =
      Except.ok (WPSOut.complex { identifier := name, title := desc, abstract := desc }
        ["application/x-ogc-wms", "application/x-ogc-wfs"] true)
    ∧ parse_output_definition { kind := OutKind.outputRasterLayer, name := name, description := desc }
        alg conf =
      Except.ok (WPSOut.complex { identifier := name, title := desc, abstract := desc }
        ["application/x-ogc-wms", "application/x-ogc-wcs"] true)
    ∧ parse_output_definition { kind := OutKind.outputMapLayer, name := name, description := desc }
        alg conf = Except.error (Err.outputTypeNotSupported "outputLayer")
    ∧ parse_output_definition { kind := OutKind.outputMultipleLayers, name := name, description := desc }
        alg conf = Except.error (Err.outputTypeNotSupported "outputMultilayer") := by
  refine ⟨rfl, rfl, rfl, rfl⟩

/-- C8: for a fileDestination or folderDestination parameter, the decoded
value is the base name of the normalized submitted path, a truncation
warning is logged exactly when that value differs from the submitted
path, the branch never fails, and in particular ../../etc/passwd
normalizes to passwd. -/
theorem filedest_normalizes_to_basename (param : ParamDef)
    (hk : param.kind = ParamKind.fileDestination ∨ param.kind = ParamKind.folderDestination)
    (v : InValue) (rest : List InValue) (ctx : ProcessingContext) :
    input_to_processing param.name (v :: rest) [param] ctx =
      Except.ok {
        name := param.name,
        value := ProcValue.str (pyBasename (pyNormpath v.data)),
        param := param, ctx := ctx,
        warnings :=
          if pyBasename (pyNormpath v.data) ≠ v.data then
            ["Value for file or folder destination '" ++ param.name ++
             "' has been truncated from '" ++ v.data ++ "' to '" ++
             pyBasename (pyNormpath v.data) ++ "'"]
          else [] }
    ∧ pyBasename (pyNormpath "../../etc/passwd") = "passwd" := by
  constructor
  · rcases hk with hk | hk <;>
      simp [input_to_processing, List.find?, hk, isDestinationLayerType,
        isInputLayerType, isInputVectorLayerType, isInputRasterLayerType,
        isInputOtherLayerType, ParamDef.typ, ParamKind.typeName]
  · rfl

/-- Witness for filedest_normalizes_to_basename: submitting
../../etc/passwd for a fileDestination parameter yields passwd and logs
the truncation warning. -/
theorem filedest_normalizes_to_basename_witness :
    input_to_processing "p" [{ data := "../../etc/passwd", crs := "" }]
        [{ baseParam with kind := ParamKind.fileDestination }]
        { rootdir := "/root", layers := [], destination_project := 7 } =
      Except.ok {
        name := "p",
        value := ProcValue.str "passwd",
        param := { baseParam with kind := ParamKind.fileDestination },
        ctx := { rootdir := "/root", layers := [], destination_project := 7 },
        warnings := ["Value for file or folder destination 'p' has been truncated " ++
          "from '../../etc/passwd' to 'passwd'"] } := by
  have h := (filedest_normalizes_to_basename
    { baseParam with kind := ParamKind.fileDestination } (Or.inl rfl)
    { data := "../../etc/passwd", crs := "" } []
    { rootdir := "/root", layers := [], destination_project := 7 }).1
  simpa using h

/-- C9: a parameter of a kind that reaches the decoder fallback (string,
boolean, number, field, band) decodes an empty submitted-value list to a
null native value without failing, logging a warning exactly when the
parameter is not optional; with at least one submitted value it returns
the first value's raw data unchanged and logs nothing. -/
theorem fallback_decode (param : ParamDef)
    (hk : param.kind = ParamKind.string ∨ param.kind = ParamKind.boolean
        ∨ param.kind = ParamKind.number ∨ param.kind = ParamKind.field
        ∨ param.kind = ParamKind.band)
    (ctx : ProcessingContext) :
    input_to_processing param.name [] [param] ctx =
      Except.ok {
        name := param.name, value := ProcValue.none, param := param, ctx := ctx,
        warnings :=
          if ¬ _is_optional param then
            ["Required input " ++ param.name ++ " has no value"]
          else [] }
    ∧ ∀ (v : InValue) (rest : List InValue),
        input_to_processing param.name (v :: rest) [param] ctx =
          Except.ok {
            name := param.name, value := ProcValue.str v.data, param := param,
            ctx := ctx, warnings := [] } := by
  constructor
  · rcases hk with hk | hk | hk | hk | hk <;>
      simp [input_to_processing, List.find?, hk, isDestinationLayerType,
        isInputLayerType, isInputVectorLayerType, isInputRasterLayerType,
        isInputOtherLayerType, ParamDef.typ, ParamKind.typeName]
  · intro v rest
    rcases hk with hk | hk | hk | hk | hk <;>
      simp [input_to_processing, List.find?, hk, isDestinationLayerType,
        isInputLayerType, isInputVectorLayerType, isInputRasterLayerType,
        isInputOtherLayerType, ParamDef.typ, ParamKind.typeName]

/-- Witness for fallback_decode: a required string parameter with no
submitted value decodes to null with a warning, and with a submitted
value passes the raw data through. -/
theorem fallback_decode_witness :
    input_to_processing "p" [] [baseParam]
        { rootdir := "/root", layers := [], destination_project := 7 } =
      Except.ok {
        name := "p", value := ProcValue.none, param := baseParam,
        ctx := { rootdir := "/root", layers := [], destination_project := 7 },
        warnings := ["Required input p has no value"] }
    ∧ input_to_processing "p" [{ data := "raw", crs := "" }] [baseParam]
        { rootdir := "/root", layers := [], destination_project := 7 } =
      Except.ok {
        name := "p", value := ProcValue.str "raw", param := baseParam,
        ctx := { rootdir := "/root", layers := [], destination_project := 7 },
        warnings := [] } := by
  have h := fallback_decode baseParam (Or.inl rfl)
    { rootdir := "/root", layers := [], destination_project := 7 }
  exact ⟨by simpa using h.1, h.2 { data := "raw", crs := "" } []⟩

end ProcessingIO
